import Mathlib

/-!
Verification of the "Golden" FPS character controller
(`src/character_controller.rs` of gold-silver-copper/fps).

The per-tick movement systems are embedded shallowly: `f32` values are
modelled as exact reals, `glam` vectors as a record of three reals, and
each Bevy system body becomes a pure function from its inputs (controller
config, input snapshot, spatial-hit report, mutable state, velocity) to
the state it writes this tick.  Shape casts are external collaborators:
their outcomes enter the probe system as `Option` parameters.
-/

set_option maxHeartbeats 1000000

open Classical

noncomputable section

namespace Golden

/-- Exact-real 3-vector mirroring glam `Vec3` (the `f32` components are
modelled as reals). -/
structure Vec3 where
  x : ℝ
  y : ℝ
  z : ℝ

def Vec3.zero : Vec3 := ⟨0, 0, 0⟩

/-- glam `Vec3::Y`. -/
def Vec3.unitY : Vec3 := ⟨0, 1, 0⟩

def Vec3.add (a b : Vec3) : Vec3 := ⟨a.x + b.x, a.y + b.y, a.z + b.z⟩

def Vec3.sub (a b : Vec3) : Vec3 := ⟨a.x - b.x, a.y - b.y, a.z - b.z⟩

/-- Scalar multiplication `v * s` / `s * v`. -/
def Vec3.smul (s : ℝ) (v : Vec3) : Vec3 := ⟨s * v.x, s * v.y, s * v.z⟩

/-- Componentwise product (glam `Mul<Vec3> for Vec3`). -/
def Vec3.mulv (a b : Vec3) : Vec3 := ⟨a.x * b.x, a.y * b.y, a.z * b.z⟩

def Vec3.dot (a b : Vec3) : ℝ := a.x * b.x + a.y * b.y + a.z * b.z

/-- glam `length_squared`. -/
def Vec3.lengthSq (v : Vec3) : ℝ := Vec3.dot v v

/-- glam `length`. -/
def Vec3.length (v : Vec3) : ℝ := Real.sqrt (Vec3.lengthSq v)

/-- Componentwise division by a scalar (`wish_direction /= wish_speed`). -/
def Vec3.divs (v : Vec3) (s : ℝ) : Vec3 := ⟨v.x / s, v.y / s, v.z / s⟩

/-- `pub static FPS: f64 = 120.0`. -/
def FPS : ℝ := 120

/-- `f32::EPSILON` (2 to the power -23), the normalization guard. -/
def f32_epsilon : ℝ := 1 / 2 ^ 23

/-- `const CALC_EPSILON: f32 = 0.01`. -/
def CALC_EPSILON : ℝ := 0.01

/-- Rust `f32::clamp(self, lo, hi)`: `lo` if below, `hi` if above, else the
value itself (the source only calls it with `lo ≤ hi`). -/
def rclamp (x lo hi : ℝ) : ℝ := if x < lo then lo else if x > hi then hi else x

/-- Rust `f32::signum` on non-NaN input: -1 for negative values, +1
otherwise (the sign of +0.0 is +1). -/
def rsignum (x : ℝ) : ℝ := if x < 0 then -1 else 1

/-- `u8::saturating_add(1)` acting on the modelled counter value. -/
def satAdd8 (n : ℕ) : ℕ := min (n + 1) 255

/-- `Mat3::from_axis_angle(Vec3::Y, yaw)` with its `z_axis` negated
("Forward is -Z"), applied to a vector, as in lines 280-282. -/
def mat3_rot_y_neg_z (yaw : ℝ) (v : Vec3) : Vec3 :=
  ⟨Real.cos yaw * v.x - Real.sin yaw * v.z, v.y,
   -Real.sin yaw * v.x - Real.cos yaw * v.z⟩

/-- Mirrors `GoldenController` (immutable tuning parameters). -/
structure GoldenController where
  radius : ℝ
  grounded_distance : ℝ
  walk_speed : ℝ
  forward_speed : ℝ
  side_speed : ℝ
  air_speed_cap : ℝ
  air_acceleration : ℝ
  acceleration : ℝ
  crouch_speed : ℝ
  traction_normal_cutoff : ℝ
  height : ℝ
  air_damp : ℝ
  friction : ℝ
  mass : ℝ
  enable_input : Bool
  jump_force : ℝ
  lean_max : ℝ
  air_friction : ℝ
  lean_side_impulse : ℝ
  leaning_speed : ℝ

/-- Mirrors `GoldenControllerInput`; the source field `lean` is called
`lean_axis` here. -/
structure GoldenControllerInput where
  jump : Bool
  crouch : Bool
  pitch : ℝ
  yaw : ℝ
  movement : Vec3
  lean_axis : ℝ
  lean_degree_mod : ℝ
  crouch_degree_mod : ℝ

/-- Mirrors `GoldenControllerMutables`; `ground_tick` is a `u8`, modelled
as the natural number it denotes. -/
structure GoldenControllerMutables where
  ground_tick : ℕ
  pitch : ℝ
  yaw : ℝ
  lean_degree : ℝ
  sensitivity : ℝ
  crouch_degree : ℝ

/-- Mirrors `GoldenControllerSpatialHits`. -/
structure GoldenControllerSpatialHits where
  top_up : Bool
  bottom_down : Bool
  bottom_down_distance : ℝ
  bottom_hit_normal : Vec3
  right_wall_dist : Bool × ℝ
  left_wall_dist : Bool × ℝ

/-- What a successful avian shape cast reports back (the fields the
controller reads: `distance` and `normal1`). -/
structure ShapeHitData where
  distance : ℝ
  normal1 : Vec3

/-- Everything `fps_controller_move` writes during one tick: the total
impulse accumulated into `ExternalImpulse`, the velocity after its direct
mutations, the new `ground_tick`, and the new `LinearDamping`. -/
structure MoveOutput where
  impulse : Vec3
  velocity : Vec3
  ground_tick : ℕ
  damping : ℝ

/-- The `Default for GoldenController` values (lines 131-177). -/
def default_controller : GoldenController :=
  { radius := 0.4
    grounded_distance := 0.4
    walk_speed := 6
    forward_speed := 30
    side_speed := 30
    air_speed_cap := 2
    air_acceleration := 9
    acceleration := 4
    crouch_speed := 4
    traction_normal_cutoff := 0.6
    height := 1
    air_damp := 0.3
    friction := 0
    mass := 80
    enable_input := true
    jump_force := 6
    lean_max := 0.35
    air_friction := 0
    lean_side_impulse := 65
    leaning_speed := 2 }

/-- The Quake acceleration helper `acceleration` (lines 753-768). -/
def acceleration (wish_direction : Vec3) (wish_speed accel : ℝ)
    (velocity : Vec3) (dt : ℝ) : Vec3 :=
  let velocity_projection := Vec3.dot velocity wish_direction
  let add_speed := wish_speed - velocity_projection
  if add_speed ≤ 0 then Vec3.zero
  else
    let acceleration_speed := min (accel * wish_speed * dt) add_speed
    Vec3.smul acceleration_speed wish_direction

/-- The wish-direction/wish-speed computation duplicated at lines 279-287
(in `fps_controller_move`) and 409-417 (in `fps_controller_spatial_hitter`):
rotate `movement * speeds` by yaw (forward is -Z) and normalize when the
length exceeds `f32::EPSILON`. -/
def wish_direction_speed (c : GoldenController)
    (input : GoldenControllerInput) : Vec3 × ℝ :=
  let speeds : Vec3 := ⟨c.side_speed, 0, c.forward_speed⟩
  let wish0 := mat3_rot_y_neg_z input.yaw (Vec3.mulv input.movement speeds)
  let wish_speed := wish0.length
  if wish_speed > f32_epsilon then (wish0.divs wish_speed, wish_speed)
  else (wish0, wish_speed)

/-- The wobbly-velocity fix at lines 380-386: zero out tiny lateral
velocity components. -/
def wobble_fix (v : Vec3) : Vec3 :=
  ⟨if |v.x| < 0.004 then 0 else v.x, v.y, if |v.z| < 0.004 then 0 else v.z⟩

/-- The body of `fps_controller_move` (lines 253-388) for one controller:
from config, input, spatial hits, mutable state and current linear
velocity to the tick's accumulated impulse, mutated velocity, new
`ground_tick` and new damping. -/
def fps_controller_move (c : GoldenController) (input : GoldenControllerInput)
    (spatial_hits : GoldenControllerSpatialHits)
    (m : GoldenControllerMutables) (velocity : Vec3) : MoveOutput :=
  let dt : ℝ := 1 / FPS
  let wish := wish_direction_speed c input
  let wish_direction := wish.1
  let max_speed :=
    max (c.walk_speed * (1 - m.crouch_degree / 2) * (1 - |m.lean_degree| / 2)) 3
  let wish_speed := min wish.2 max_speed
  if spatial_hits.bottom_down then
    let damping0 := c.air_damp * 10
    let add :=
      if input.jump = false then
        acceleration wish_direction wish_speed c.acceleration velocity dt
      else
        acceleration wish_direction (min wish_speed c.air_speed_cap)
          c.air_acceleration velocity dt
    let impulse0 := Vec3.smul c.mass add
    let has_traction :=
      Vec3.dot spatial_hits.bottom_hit_normal Vec3.unitY > c.traction_normal_cutoff
    let spring_impulse :=
      if has_traction ∧ input.jump = false then
        let current_height := spatial_hits.bottom_down_distance
        let target_height : ℝ := 0.5
        let height_error := target_height - current_height
        let freq : ℝ := 0.8
        let damping_ratio : ℝ := 0.8
        let omega := 2 * Real.pi * freq
        let k := c.mass * omega * omega
        let cdamp := 2 * c.mass * damping_ratio * omega
        let vertical_vel := velocity.y
        let f_spring := k * height_error
        let f_damp := -cdamp * vertical_vel
        let f_total := f_spring + f_damp + c.mass * 9.81
        Vec3.smul (f_total * dt) Vec3.unitY
      else Vec3.zero
    let velocity1 :=
      if has_traction then
        Vec3.sub velocity
          (Vec3.smul (Vec3.dot velocity spatial_hits.bottom_hit_normal)
            spatial_hits.bottom_hit_normal)
      else velocity
    let damping1 :=
      if has_traction ∧ input.jump = false ∧ Vec3.lengthSq input.movement < 0.1 then
        c.air_damp * 30
      else damping0
    let jump_impulse :=
      if has_traction ∧ input.jump = true ∧ velocity1.y < 1 then
        Vec3.smul c.mass ⟨0, c.jump_force, 0⟩
      else Vec3.zero
    let ground_tick1 := satAdd8 m.ground_tick
    { impulse := Vec3.add (Vec3.add impulse0 spring_impulse) jump_impulse
      velocity := wobble_fix velocity1
      ground_tick := ground_tick1
      damping := damping1 }
  else
    let damping1 := c.air_damp
    let wish_speed1 := min wish_speed c.air_speed_cap
    let add := acceleration wish_direction wish_speed1 c.air_acceleration velocity dt
    { impulse := Vec3.smul c.mass add
      velocity := wobble_fix velocity
      ground_tick := 0
      damping := damping1 }

/-- The body of `fps_controller_spatial_hitter` (lines 390-498) as a
function of the previous hit report and the four shape-cast outcomes
(the casts themselves are the physics engine's, an external
collaborator). -/
def fps_controller_spatial_hitter (prev : GoldenControllerSpatialHits)
    (bottom_down_hit top_up_hit right_hit left_hit : Option ShapeHitData) :
    GoldenControllerSpatialHits :=
  let s1 :=
    match bottom_down_hit with
    | some hit =>
        { prev with
          bottom_down := true
          bottom_hit_normal := hit.normal1
          bottom_down_distance := hit.distance }
    | none => { prev with bottom_down := false, bottom_hit_normal := Vec3.zero }
  let s2 :=
    if top_up_hit.isSome then { s1 with top_up := true }
    else { s1 with top_up := false }
  let s3 :=
    match right_hit with
    | some h => { s2 with right_wall_dist := (true, h.distance) }
    | none => { s2 with right_wall_dist := (false, 1) }
  match left_hit with
  | some h => { s3 with left_wall_dist := (true, h.distance) }
  | none => { s3 with left_wall_dist := (false, 1) }

/-- The `lean_degree` update performed by `fps_controller_lean`
(lines 517-553).  The transform side effects (lateral shift and roll,
lines 555-563) act on the `Transform`, not on `lean_degree`, and are not
modelled. -/
def fps_controller_lean_update (c : GoldenController)
    (input : GoldenControllerInput) (spatial_hits : GoldenControllerSpatialHits)
    (lean_degree : ℝ) : ℝ :=
  let dt : ℝ := 1 / FPS
  let lean_step := c.leaning_speed * dt
  let target0 := input.lean_axis
  let target1 :=
    if spatial_hits.right_wall_dist.1 = true ∧ target0 > 0 then
      spatial_hits.right_wall_dist.2
    else target0
  let target2 :=
    if spatial_hits.left_wall_dist.1 = true ∧ target1 < 0 then
      -spatial_hits.left_wall_dist.2
    else target1
  let ld0 := rclamp lean_degree (-spatial_hits.left_wall_dist.2)
    spatial_hits.right_wall_dist.2
  let target3 := target2 * (1 - input.lean_degree_mod)
  let ld1 :=
    if |ld0 - target3| > CALC_EPSILON then
      ld0 + lean_step * rsignum (target3 - ld0)
    else target3
  rclamp ld1 (-spatial_hits.left_wall_dist.2) spatial_hits.right_wall_dist.2

/-- The target crouch state of `fps_controller_crouch` (lines 585-589):
`crouch_degree_mod` while crouch is held, else 0. -/
def crouch_target (input : GoldenControllerInput) : ℝ :=
  if input.crouch = true then input.crouch_degree_mod else 0

/-- The `crouch_degree` update performed by `fps_controller_crouch`
(lines 578-607).  The collider resize (lines 611-613) consumes the new
degree and is not needed by the claims. -/
def fps_controller_crouch (c : GoldenController)
    (input : GoldenControllerInput) (spatial_hits : GoldenControllerSpatialHits)
    (crouch_degree : ℝ) : ℝ :=
  let dt : ℝ := 1 / FPS
  let target_crouch := crouch_target input
  let cd :=
    if |crouch_degree - target_crouch| > CALC_EPSILON then
      if crouch_degree < target_crouch then crouch_degree + c.crouch_speed * dt
      else if crouch_degree > target_crouch then
        (if spatial_hits.top_up = false then crouch_degree - c.crouch_speed * dt
         else crouch_degree)
      else crouch_degree
    else target_crouch
  rclamp cd 0 1

/-- Rust `f32::rem_euclid` for a positive modulus: the least nonnegative
remainder. -/
def rem_euclid (x m : ℝ) : ℝ := x - m * ⌊x / m⌋

/-- The yaw half of `fps_controller_input` (lines 658-661): accumulate
the scaled mouse delta, then wrap with `rem_euclid(TAU)` when the
magnitude exceeds `PI`. -/
def fps_controller_input_yaw (yaw mouse_delta_x sensitivity : ℝ) : ℝ :=
  let yaw1 := yaw - mouse_delta_x * sensitivity
  if |yaw1| > Real.pi then rem_euclid yaw1 (2 * Real.pi) else yaw1

/-- The collider shapes the helpers at lines 729-751 distinguish: a
cylinder (radius, half height), a capsule (radius, segment half length),
or any other parry shape (`other`). -/
inductive ColliderShape where
  | cylinder (radius half_height : ℝ)
  | capsule (radius half_height : ℝ)
  | other

/-- Whether the shape is in the family the controller supports. -/
def ColliderShape.isCylinderOrCapsule : ColliderShape → Bool
  | .cylinder _ _ => true
  | .capsule _ _ => true
  | .other => false

/-- avian `Collider::cylinder(radius, height)`: stores half the height. -/
def Collider.cylinder (radius height : ℝ) : ColliderShape :=
  ColliderShape.cylinder radius (height / 2)

/-- avian `Collider::capsule(radius, length)`: `length` is the inner
segment length, so half of it is stored. -/
def Collider.capsule (radius length : ℝ) : ColliderShape :=
  ColliderShape.capsule radius (length / 2)

/-- `collider_y_offset` (lines 729-738); the `panic!` branch is modelled
as `Except.error` carrying the panic message. -/
def collider_y_offset (collider : ColliderShape) : Except String Vec3 :=
  match collider with
  | .cylinder _ half_height => .ok (Vec3.smul half_height Vec3.unitY)
  | .capsule radius half_height => .ok (Vec3.smul (half_height + radius) Vec3.unitY)
  | .other => .error "Controller must use a cylinder or capsule collider"

/-- `scaled_collider_laterally` (lines 741-751); the `panic!` branch is
modelled as `Except.error` carrying the panic message. -/
def scaled_collider_laterally (collider : ColliderShape) (scale : ℝ) :
    Except String ColliderShape :=
  match collider with
  | .cylinder radius half_height =>
      .ok (Collider.cylinder (radius * scale) (half_height * 2))
  | .capsule radius half_height =>
      .ok (Collider.capsule (radius * scale) (2 * half_height))
  | .other => .error "Controller must use a cylinder or capsule collider"

/-- Whether an `Except` value is the success case. -/
def exceptOk {α : Type} : Except String α → Bool
  | .ok _ => true
  | .error _ => false

/-- Concrete controller used by witnesses: the `Default` values. -/
def c0 : GoldenController := default_controller

/-- Concrete input: jump held, no movement, yaw 0. -/
def i_jump : GoldenControllerInput :=
  { jump := true
    crouch := false
    pitch := 0
    yaw := 0
    movement := Vec3.zero
    lean_axis := 0
    lean_degree_mod := 0
    crouch_degree_mod := 1 }

/-- Concrete input: nothing pressed. -/
def i_still : GoldenControllerInput :=
  { jump := false
    crouch := false
    pitch := 0
    yaw := 0
    movement := Vec3.zero
    lean_axis := 0
    lean_degree_mod := 0
    crouch_degree_mod := 1 }

/-- Concrete input: full forward movement, yaw 0, jump not held. -/
def i_move : GoldenControllerInput :=
  { jump := false
    crouch := false
    pitch := 0
    yaw := 0
    movement := ⟨0, 0, 1⟩
    lean_axis := 0
    lean_degree_mod := 0
    crouch_degree_mod := 1 }

/-- Concrete input: crouch held with `crouch_degree_mod` scrolled to 0. -/
def i_crouch0 : GoldenControllerInput :=
  { jump := false
    crouch := true
    pitch := 0
    yaw := 0
    movement := Vec3.zero
    lean_axis := 0
    lean_degree_mod := 0
    crouch_degree_mod := 0 }

/-- Concrete hit report: flat walkable ground 0.3 below, nothing else. -/
def hits_ground : GoldenControllerSpatialHits :=
  { top_up := false
    bottom_down := true
    bottom_down_distance := 0.3
    bottom_hit_normal := ⟨0, 1, 0⟩
    right_wall_dist := (false, 1)
    left_wall_dist := (false, 1) }

/-- Concrete hit report: airborne, no hits at all. -/
def hits_air : GoldenControllerSpatialHits :=
  { top_up := false
    bottom_down := false
    bottom_down_distance := 1
    bottom_hit_normal := Vec3.zero
    right_wall_dist := (false, 1)
    left_wall_dist := (false, 1) }

/-- Concrete mutable state with a ground streak of 5 ticks. -/
def m5 : GoldenControllerMutables :=
  { ground_tick := 5
    pitch := 0
    yaw := 0
    lean_degree := 0
    sensitivity := 0.001
    crouch_degree := 0 }

/-- Concrete mutable state, all zero. -/
def m0 : GoldenControllerMutables :=
  { ground_tick := 0
    pitch := 0
    yaw := 0
    lean_degree := 0
    sensitivity := 0.001
    crouch_degree := 0 }

/-- Previous-tick hit report whose stored ground distance is 3/10. -/
def prev_a : GoldenControllerSpatialHits :=
  { top_up := false
    bottom_down := true
    bottom_down_distance := 3 / 10
    bottom_hit_normal := Vec3.unitY
    right_wall_dist := (false, 1)
    left_wall_dist := (false, 1) }

/-- Previous-tick hit report whose stored ground distance is 7/10. -/
def prev_b : GoldenControllerSpatialHits :=
  { top_up := false
    bottom_down := true
    bottom_down_distance := 7 / 10
    bottom_hit_normal := Vec3.unitY
    right_wall_dist := (false, 1)
    left_wall_dist := (false, 1) }

theorem rclamp_mem (x lo hi : ℝ) (h : lo ≤ hi) :
    lo ≤ rclamp x lo hi ∧ rclamp x lo hi ≤ hi := by
  unfold rclamp
  split_ifs with h1 h2 <;> constructor <;> linarith

/-- The wish direction never has a vertical component: the `y` speed
factor is zero and the yaw rotation preserves `y`. -/
theorem wish_direction_y (c : GoldenController) (i : GoldenControllerInput) :
    (wish_direction_speed c i).1.y = 0 := by
  unfold wish_direction_speed
  dsimp only
  split <;> simp [mat3_rot_y_neg_z, Vec3.mulv, Vec3.divs]

/-- Quake acceleration adds no vertical velocity when the wish direction
is horizontal. -/
theorem acceleration_y_eq_zero (wd : Vec3) (ws a dt : ℝ) (v : Vec3)
    (h : wd.y = 0) : (acceleration wd ws a v dt).y = 0 := by
  unfold acceleration
  dsimp only
  split <;> simp [Vec3.zero, Vec3.smul, h]

theorem unitY_x : Vec3.unitY.x = 0 := rfl

theorem unitY_y : Vec3.unitY.y = 1 := rfl

theorem unitY_z : Vec3.unitY.z = 0 := rfl

/-- Evaluation of `wish_direction_speed` on the motionless inputs. -/
theorem wish_zero_eval_jump : wish_direction_speed c0 i_jump = (Vec3.zero, 0) := by
  unfold wish_direction_speed
  norm_num [c0, default_controller, i_jump, Vec3.mulv, Vec3.length, Vec3.lengthSq,
    Vec3.dot, mat3_rot_y_neg_z, Vec3.zero, f32_epsilon, Real.sqrt_zero]

/-- Evaluation of `fps_controller_move` on a grounded, flat-ground,
motionless, jump-held state with a 5-tick ground streak: the only
impulse is the jump impulse, and the streak counts up to 6. -/
theorem move_eval_jump :
    fps_controller_move c0 i_jump hits_ground m5 Vec3.zero =
      { impulse := ⟨0, 480, 0⟩
        velocity := ⟨0, 0, 0⟩
        ground_tick := 6
        damping := 3 } := by
  unfold fps_controller_move
  rw [wish_zero_eval_jump]
  norm_num [c0, default_controller, i_jump, hits_ground, m5, acceleration,
    Vec3.dot, Vec3.smul, Vec3.zero, Vec3.unitY, Vec3.add, Vec3.sub,
    wobble_fix, satAdd8, Vec3.lengthSq, FPS]

/-- C1: the acceleration step is the Quake formula: whenever
`dot(velocity, wish_direction) >= wish_speed` it returns the zero vector,
and otherwise it returns `wish_direction` scaled by
`min(acceleration*wish_speed*dt, wish_speed - dot(velocity, wish_direction))`. -/
theorem acceleration_quake_formula (wd : Vec3) (ws a dt : ℝ) (v : Vec3) :
    (ws ≤ Vec3.dot v wd → acceleration wd ws a v dt = Vec3.zero) ∧
    (Vec3.dot v wd < ws →
      acceleration wd ws a v dt =
        Vec3.smul (min (a * ws * dt) (ws - Vec3.dot v wd)) wd) := by
  constructor
  · intro h
    unfold acceleration
    dsimp only
    rw [if_pos (by linarith)]
  · intro h
    unfold acceleration
    dsimp only
    rw [if_neg (by push_neg; linarith)]

/-- Witness for C1 at a concrete input with positive add speed. -/
theorem acceleration_quake_formula_check :
    acceleration ⟨1, 0, 0⟩ 1 1 ⟨0, 0, 0⟩ 1 = Vec3.smul (min 1 1) ⟨1, 0, 0⟩ := by
  have h := (acceleration_quake_formula ⟨1, 0, 0⟩ 1 1 1 ⟨0, 0, 0⟩).2
    (by norm_num [Vec3.dot])
  simpa [Vec3.dot] using h

/-- C3: after a tick, `crouch_degree` lies in [0,1], and `lean_degree`
lies in the live wall-contracted range: at least minus the left wall
distance and at most the right wall distance (so a right-wall hit at
distance d caps it at d, and symmetrically for the left wall). -/
theorem degrees_stay_clamped (c : GoldenController) (i : GoldenControllerInput)
    (hits : GoldenControllerSpatialHits) (ld cd : ℝ)
    (hl : 0 ≤ hits.left_wall_dist.2) (hr : 0 ≤ hits.right_wall_dist.2) :
    (0 ≤ fps_controller_crouch c i hits cd ∧ fps_controller_crouch c i hits cd ≤ 1) ∧
    (-hits.left_wall_dist.2 ≤ fps_controller_lean_update c i hits ld ∧
      fps_controller_lean_update c i hits ld ≤ hits.right_wall_dist.2) := by
  constructor
  · unfold fps_controller_crouch
    dsimp only
    exact rclamp_mem _ 0 1 (by norm_num)
  · unfold fps_controller_lean_update
    dsimp only
    exact rclamp_mem _ _ _ (by linarith)

/-- Witness for C3 on the concrete grounded scene (wall distances 1). -/
theorem degrees_stay_clamped_check :
    (0 ≤ fps_controller_crouch c0 i_still hits_ground 0 ∧
      fps_controller_crouch c0 i_still hits_ground 0 ≤ 1) ∧
    (-hits_ground.left_wall_dist.2 ≤ fps_controller_lean_update c0 i_still hits_ground 0 ∧
      fps_controller_lean_update c0 i_still hits_ground 0 ≤
        hits_ground.right_wall_dist.2) :=
  degrees_stay_clamped c0 i_still hits_ground 0 0
    (by norm_num [hits_ground]) (by norm_num [hits_ground])

/-- C4: after the move step, `ground_tick` is 0 exactly when the ground
probe reported no hit; on a grounded tick it is incremented with `u8`
saturating arithmetic, and it can never exceed the `u8` maximum. -/
theorem ground_tick_reset_saturating (c : GoldenController)
    (i : GoldenControllerInput) (hits : GoldenControllerSpatialHits)
    (m : GoldenControllerMutables) (v : Vec3) :
    ((fps_controller_move c i hits m v).ground_tick = 0 ↔ hits.bottom_down = false) ∧
    (hits.bottom_down = true →
      (fps_controller_move c i hits m v).ground_tick = min (m.ground_tick + 1) 255) ∧
    (fps_controller_move c i hits m v).ground_tick ≤ 255 := by
  cases hb : hits.bottom_down
  · simp [fps_controller_move, hb]
  · simp only [fps_controller_move, hb, if_true, Bool.true_eq_false]
    refine ⟨⟨fun h => absurd h (by simp [satAdd8]), fun h => absurd h (by simp)⟩,
      fun _ => rfl, ?_⟩
    simp [satAdd8]

/-- Witness for C4 on a concrete airborne tick: the streak resets to 0. -/
theorem ground_tick_reset_saturating_check :
    (fps_controller_move c0 i_still hits_air m5 Vec3.zero).ground_tick = 0 :=
  (ground_tick_reset_saturating c0 i_still hits_air m5 Vec3.zero).1.mpr rfl

/-- C9: for every collider shape that is neither cylinder nor capsule
both helpers reach the fatal `panic!` branch (modelled as an error),
and for cylinder or capsule shapes the error branch is unreachable:
success is equivalent to the shape being in the supported family. -/
theorem collider_shape_fatal (sh : ColliderShape) (scale : ℝ) :
    exceptOk (collider_y_offset sh) = sh.isCylinderOrCapsule ∧
    exceptOk (scaled_collider_laterally sh scale) = sh.isCylinderOrCapsule := by
  cases sh <;>
    simp [collider_y_offset, scaled_collider_laterally, exceptOk,
      ColliderShape.isCylinderOrCapsule]

/-- C2 counterexample: on a grounded tick with traction, jump requested,
ground streak already at 5, the jump impulse IS applied (impulse.y equals
`jump_force * mass = 480`), yet `ground_tick` is incremented to 6, not
reset to 0 — the claim that applying the jump resets the gate is false,
and the gate condition is the vertical velocity, not a tick threshold. -/
theorem jump_does_not_reset_ground_tick :
    (fps_controller_move c0 i_jump hits_ground m5 Vec3.zero).impulse.y =
      c0.jump_force * c0.mass ∧
    (fps_controller_move c0 i_jump hits_ground m5 Vec3.zero).ground_tick ≠ 0 := by
  rw [move_eval_jump]
  norm_num [c0, default_controller]

/-- C2 amended: on a grounded tick with traction and jump requested,
the upward impulse of magnitude `mass * jump_force` is applied exactly
when the post-normal-cancel vertical velocity is below 1; the ground
streak is incremented (with u8 saturation) on every grounded tick and is
never reset by jumping. -/
theorem jump_impulse_gate (c : GoldenController) (i : GoldenControllerInput)
    (hits : GoldenControllerSpatialHits) (m : GoldenControllerMutables)
    (v : Vec3) (hdown : hits.bottom_down = true)
    (htr : Vec3.dot hits.bottom_hit_normal Vec3.unitY > c.traction_normal_cutoff)
    (hj : i.jump = true) :
    (fps_controller_move c i hits m v).impulse.y =
      (if (Vec3.sub v (Vec3.smul (Vec3.dot v hits.bottom_hit_normal)
          hits.bottom_hit_normal)).y < 1 then c.mass * c.jump_force else 0) ∧
    (fps_controller_move c i hits m v).ground_tick = min (m.ground_tick + 1) 255 := by
  unfold fps_controller_move
  simp only [hdown, hj, if_true, Bool.true_eq_false, satAdd8]
  constructor
  · simp [htr, acceleration_y_eq_zero, wish_direction_y, Vec3.add, Vec3.zero,
      Vec3.smul, apply_ite Vec3.y]
  · trivial

/-- Witness for the amended C2 on the concrete jump-held grounded state. -/
theorem jump_impulse_gate_check :
    (fps_controller_move c0 i_jump hits_ground m5 Vec3.zero).ground_tick =
      min (m5.ground_tick + 1) 255 :=
  (jump_impulse_gate c0 i_jump hits_ground m5 Vec3.zero rfl
    (by norm_num [hits_ground, c0, default_controller, Vec3.dot, Vec3.unitY])
    rfl).2

/-- C7 counterexample: on a grounded tick with traction but jump held,
the whole tick impulse is the bare jump impulse (y component 480) and the
spring-damper term of the claim is NOT added, although its value at this
state is nonzero — so the spring does not fire on every grounded tick
with traction; it is additionally gated on jump not being requested. -/
theorem spring_skipped_when_jumping :
    (fps_controller_move c0 i_jump hits_ground m5 Vec3.zero).impulse.y = 480 ∧
    (480 : ℝ) ≠ 480 +
      (c0.mass * (2 * Real.pi * 0.8) ^ 2 * (0.5 - hits_ground.bottom_down_distance)
        - 2 * c0.mass * 0.8 * (2 * Real.pi * 0.8) * (Vec3.zero).y
        + c0.mass * 9.81) * (1 / FPS) := by
  constructor
  · rw [move_eval_jump]
  · have hpi := Real.pi_gt_three
    intro hcontra
    rw [show (Vec3.zero).y = 0 from rfl] at hcontra
    norm_num [c0, default_controller, hits_ground, FPS] at hcontra
    nlinarith [Real.pi_gt_three]

/-- C7 amended: when grounded with traction AND jump not requested, the
vertical impulse this tick is exactly `f * dt` where
`f = k*(target_height - current_height) - c*vertical_velocity + mass*9.81`,
with `k = mass*omega^2`, `c = 2*mass*zeta*omega`, `omega = 2*pi*freq`,
`freq = zeta = 0.8`, `target_height = 0.5`, and `current_height` the live
ground-probe distance. -/
theorem ground_spring_formula (c : GoldenController) (i : GoldenControllerInput)
    (hits : GoldenControllerSpatialHits) (m : GoldenControllerMutables)
    (v : Vec3) (hdown : hits.bottom_down = true)
    (htr : Vec3.dot hits.bottom_hit_normal Vec3.unitY > c.traction_normal_cutoff)
    (hj : i.jump = false) :
    (fps_controller_move c i hits m v).impulse.y =
      (c.mass * (2 * Real.pi * 0.8) ^ 2 * (0.5 - hits.bottom_down_distance)
        - 2 * c.mass * 0.8 * (2 * Real.pi * 0.8) * v.y
        + c.mass * 9.81) * (1 / FPS) := by
  unfold fps_controller_move
  simp only [hdown, hj, if_true]
  simp [htr, acceleration_y_eq_zero, wish_direction_y, Vec3.add, Vec3.zero,
    Vec3.smul, unitY_y, apply_ite Vec3.y]
  exact Or.inl (by ring)

/-- Witness for the amended C7 on the concrete grounded resting state. -/
theorem ground_spring_formula_check :
    (fps_controller_move c0 i_still hits_ground m5 Vec3.zero).impulse.y =
      (c0.mass * (2 * Real.pi * 0.8) ^ 2 * (0.5 - hits_ground.bottom_down_distance)
        - 2 * c0.mass * 0.8 * (2 * Real.pi * 0.8) * (Vec3.zero).y
        + c0.mass * 9.81) * (1 / FPS) :=
  ground_spring_formula c0 i_still hits_ground m5 Vec3.zero rfl
    (by norm_num [hits_ground, c0, default_controller, Vec3.dot, Vec3.unitY])
    rfl

/-- C10: on a grounded tick the lateral impulse comes from the Quake
acceleration helper with, when jump is held, the wish speed additionally
capped at `air_speed_cap` and the `air_acceleration` rate (bunny-hop
path), and, when jump is not held, the wish speed capped only at the
crouch/lean-scaled `max_speed` and the ground `acceleration` rate. -/
theorem bhop_branch_params (c : GoldenController) (i : GoldenControllerInput)
    (hits : GoldenControllerSpatialHits) (m : GoldenControllerMutables)
    (v : Vec3) (hdown : hits.bottom_down = true) :
    (i.jump = true →
      (fps_controller_move c i hits m v).impulse.x =
        c.mass * (acceleration (wish_direction_speed c i).1
          (min (min (wish_direction_speed c i).2
            (max (c.walk_speed * (1 - m.crouch_degree / 2) * (1 - |m.lean_degree| / 2)) 3))
            c.air_speed_cap)
          c.air_acceleration v (1 / FPS)).x ∧
      (fps_controller_move c i hits m v).impulse.z =
        c.mass * (acceleration (wish_direction_speed c i).1
          (min (min (wish_direction_speed c i).2
            (max (c.walk_speed * (1 - m.crouch_degree / 2) * (1 - |m.lean_degree| / 2)) 3))
            c.air_speed_cap)
          c.air_acceleration v (1 / FPS)).z) ∧
    (i.jump = false →
      (fps_controller_move c i hits m v).impulse.x =
        c.mass * (acceleration (wish_direction_speed c i).1
          (min (wish_direction_speed c i).2
            (max (c.walk_speed * (1 - m.crouch_degree / 2) * (1 - |m.lean_degree| / 2)) 3))
          c.acceleration v (1 / FPS)).x ∧
      (fps_controller_move c i hits m v).impulse.z =
        c.mass * (acceleration (wish_direction_speed c i).1
          (min (wish_direction_speed c i).2
            (max (c.walk_speed * (1 - m.crouch_degree / 2) * (1 - |m.lean_degree| / 2)) 3))
          c.acceleration v (1 / FPS)).z) := by
  constructor <;> intro hj <;>
    unfold fps_controller_move <;>
    simp [hdown, hj, Vec3.add, Vec3.zero, Vec3.smul, Vec3.unitY,
      apply_ite Vec3.x, apply_ite Vec3.z]

/-- Witness for C10 on the concrete grounded forward-moving state. -/
theorem bhop_branch_params_check :
    (fps_controller_move c0 i_move hits_ground m0 Vec3.zero).impulse.x =
      c0.mass * (acceleration (wish_direction_speed c0 i_move).1
        (min (wish_direction_speed c0 i_move).2
          (max (c0.walk_speed * (1 - m0.crouch_degree / 2) * (1 - |m0.lean_degree| / 2)) 3))
        c0.acceleration Vec3.zero (1 / FPS)).x :=
  ((bhop_branch_params c0 i_move hits_ground m0 Vec3.zero rfl).2 rfl).1

/-- C5 counterexample: starting from yaw 5 with scaled delta 1, the
accumulated yaw 4 has magnitude above pi, the wrap branch runs, and the
result is 4 — which is NOT in the claimed interval (-pi, pi]: the
`rem_euclid(TAU)` wrap lands in [0, 2*pi), not (-pi, pi]. -/
theorem yaw_wrap_not_into_Ioc :
    fps_controller_input_yaw 5 1 1 = 4 ∧
    fps_controller_input_yaw 5 1 1 ∉ Set.Ioc (-Real.pi) Real.pi := by
  have habs : |(5 : ℝ) - 1 * 1| > Real.pi := by
    rw [show ((5 : ℝ) - 1 * 1) = 4 by norm_num, abs_of_nonneg (by norm_num)]
    nlinarith [Real.pi_lt_d2]
  have h4 : fps_controller_input_yaw 5 1 1 = 4 := by
    unfold fps_controller_input_yaw rem_euclid
    dsimp only
    rw [if_pos habs]
    have hfloor : ⌊((5 : ℝ) - 1 * 1) / (2 * Real.pi)⌋ = 0 := by
      rw [Int.floor_eq_zero_iff]
      constructor
      · positivity
      · rw [div_lt_one (by positivity)]
        nlinarith [Real.pi_gt_three]
    rw [hfloor]
    norm_num
  refine ⟨h4, ?_⟩
  rw [h4]
  intro hmem
  nlinarith [Real.pi_lt_d2, hmem.2]

/-- C5 amended: yaw accumulates `yaw - delta_x*sensitivity`; whenever the
magnitude of the accumulated value exceeds pi it is wrapped by Euclidean
modulo 2*pi into [0, 2*pi) (not into (-pi, pi]), differing from the
accumulated value by an integer multiple of 2*pi. -/
theorem yaw_wrap_mod_range (yaw dx s : ℝ) (h : |yaw - dx * s| > Real.pi) :
    fps_controller_input_yaw yaw dx s ∈ Set.Ico 0 (2 * Real.pi) ∧
    ∃ k : ℤ, fps_controller_input_yaw yaw dx s = yaw - dx * s - 2 * Real.pi * k := by
  have h2 : (0 : ℝ) < 2 * Real.pi := by positivity
  unfold fps_controller_input_yaw rem_euclid
  dsimp only
  rw [if_pos h]
  have h3 := Int.sub_floor_div_mul_nonneg (yaw - dx * s) h2
  have h4 := Int.sub_floor_div_mul_lt (yaw - dx * s) h2
  exact ⟨⟨by nlinarith, by nlinarith⟩,
    ⟨⌊(yaw - dx * s) / (2 * Real.pi)⌋, by ring⟩⟩

/-- Witness for the amended C5 at the concrete over-pi accumulated yaw. -/
theorem yaw_wrap_mod_range_check :
    fps_controller_input_yaw 5 1 1 ∈ Set.Ico 0 (2 * Real.pi) ∧
    ∃ k : ℤ, fps_controller_input_yaw 5 1 1 = 5 - 1 * 1 - 2 * Real.pi * k :=
  yaw_wrap_mod_range 5 1 1 (by
    rw [show ((5 : ℝ) - 1 * 1) = 4 by norm_num, abs_of_nonneg (by norm_num)]
    nlinarith [Real.pi_lt_d2])

/-- C6 counterexample: crouch held with `crouch_degree_mod` scrolled to 0
and `crouch_degree` at 1/2: the claim (target 1 when crouch held) says
the degree may only move up toward 1, but the code's target is
`crouch_degree_mod = 0` and the degree DECREASES to 7/15. -/
theorem crouch_target_uses_mod :
    fps_controller_crouch c0 i_crouch0 hits_air (1 / 2) = 7 / 15 ∧
    ((7 : ℝ) / 15) < 1 / 2 := by
  constructor
  · unfold fps_controller_crouch crouch_target
    dsimp only
    norm_num [i_crouch0, hits_air, c0, default_controller, CALC_EPSILON, FPS,
      rclamp, abs_of_nonneg]
  · norm_num

/-- C6 amended: the per-tick crouch target is `crouch_degree_mod` when
the crouch input is held (0 otherwise); the degree snaps to the clamped
target when within `CALC_EPSILON`, otherwise steps by
`crouch_speed * dt` toward it, with the decreasing (uncrouch) step
blocked while the ceiling probe reports an obstruction; the result is
clamped to [0, 1]. -/
theorem crouch_update_rule (c : GoldenController) (i : GoldenControllerInput)
    (hits : GoldenControllerSpatialHits) (cd : ℝ) :
    (|cd - crouch_target i| ≤ CALC_EPSILON →
      fps_controller_crouch c i hits cd = rclamp (crouch_target i) 0 1) ∧
    (|cd - crouch_target i| > CALC_EPSILON → cd < crouch_target i →
      fps_controller_crouch c i hits cd =
        rclamp (cd + c.crouch_speed * (1 / FPS)) 0 1) ∧
    (|cd - crouch_target i| > CALC_EPSILON → crouch_target i < cd →
      hits.top_up = false →
      fps_controller_crouch c i hits cd =
        rclamp (cd - c.crouch_speed * (1 / FPS)) 0 1) ∧
    (|cd - crouch_target i| > CALC_EPSILON → crouch_target i < cd →
      hits.top_up = true →
      fps_controller_crouch c i hits cd = rclamp cd 0 1) := by
  refine ⟨fun h1 => ?_, fun h1 h2 => ?_, fun h1 h2 h3 => ?_, fun h1 h2 h3 => ?_⟩ <;>
    unfold fps_controller_crouch <;> dsimp only
  · rw [if_neg (not_lt.mpr h1)]
  · rw [if_pos h1, if_pos h2]
  · rw [if_pos h1, if_neg (not_lt.mpr (le_of_lt h2)), if_pos h2, if_pos h3]
  · rw [if_pos h1, if_neg (not_lt.mpr (le_of_lt h2)), if_pos h2,
      if_neg (by simp [h3])]

/-- Witness for the amended C6: uncrouch step with a free ceiling. -/
theorem crouch_update_rule_check :
    fps_controller_crouch c0 i_crouch0 hits_air (1 / 2) =
      rclamp (1 / 2 - c0.crouch_speed * (1 / FPS)) 0 1 :=
  (crouch_update_rule c0 i_crouch0 hits_air (1 / 2)).2.2.1
    (by norm_num [crouch_target, i_crouch0, CALC_EPSILON, abs_of_nonneg])
    (by norm_num [crouch_target, i_crouch0]) rfl

/-- C8 counterexample: two previous-tick reports that differ only in the
stored ground distance, fed the same all-miss cast outcomes, produce
different new reports — `bottom_down_distance` is NOT recomputed on a
no-hit tick; it retains the previous tick's value (memory). -/
theorem probe_distance_memory :
    (fps_controller_spatial_hitter prev_a none none none none).bottom_down_distance
      = 3 / 10 ∧
    (fps_controller_spatial_hitter prev_b none none none none).bottom_down_distance
      = 7 / 10 ∧
    fps_controller_spatial_hitter prev_a none none none none ≠
      fps_controller_spatial_hitter prev_b none none none none := by
  refine ⟨by simp [fps_controller_spatial_hitter, prev_a],
    by simp [fps_controller_spatial_hitter, prev_b], fun hcontra => ?_⟩
  have hd := congrArg GoldenControllerSpatialHits.bottom_down_distance hcontra
  simp [fps_controller_spatial_hitter, prev_a, prev_b] at hd
  norm_num at hd

/-- C8 amended: the hit flags and (for the ground probe) the normal are
recomputed fresh from this tick's cast outcomes; on a miss the ground
probe reports `hit = false` with a zero normal but keeps the previously
stored distance; and a `hit = false` ground report is never treated as a
walkable contact by the solver: the move step then takes the airborne
path, resetting the streak, selecting air damping, and adding no
vertical (spring or jump) impulse. -/
theorem probe_no_hit_behavior (prev : GoldenControllerSpatialHits)
    (t r l : Option ShapeHitData) (c : GoldenController)
    (i : GoldenControllerInput) (hits : GoldenControllerSpatialHits)
    (m : GoldenControllerMutables) (v : Vec3) :
    ((fps_controller_spatial_hitter prev none t r l).bottom_down = false ∧
      (fps_controller_spatial_hitter prev none t r l).bottom_hit_normal = Vec3.zero ∧
      (fps_controller_spatial_hitter prev none t r l).bottom_down_distance =
        prev.bottom_down_distance ∧
      (fps_controller_spatial_hitter prev none t r l).top_up = t.isSome) ∧
    (hits.bottom_down = false →
      (fps_controller_move c i hits m v).ground_tick = 0 ∧
      (fps_controller_move c i hits m v).damping = c.air_damp ∧
      (fps_controller_move c i hits m v).impulse.y = 0) := by
  constructor
  · unfold fps_controller_spatial_hitter
    dsimp only
    cases t <;> cases r <;> cases l <;> simp
  · intro hb
    unfold fps_controller_move
    simp [hb, acceleration_y_eq_zero, wish_direction_y, Vec3.smul]

/-- Witness for the amended C8 on concrete miss outcomes and the
concrete airborne move state. -/
theorem probe_no_hit_behavior_check :
    ((fps_controller_spatial_hitter prev_a none none none none).bottom_down = false ∧
      (fps_controller_spatial_hitter prev_a none none none none).bottom_hit_normal =
        Vec3.zero ∧
      (fps_controller_spatial_hitter prev_a none none none none).bottom_down_distance =
        prev_a.bottom_down_distance ∧
      (fps_controller_spatial_hitter prev_a none none none none).top_up =
        (none : Option ShapeHitData).isSome) ∧
    (hits_air.bottom_down = false →
      (fps_controller_move c0 i_jump hits_air m0 Vec3.zero).ground_tick = 0 ∧
      (fps_controller_move c0 i_jump hits_air m0 Vec3.zero).damping = c0.air_damp ∧
      (fps_controller_move c0 i_jump hits_air m0 Vec3.zero).impulse.y = 0) :=
  probe_no_hit_behavior prev_a none none none c0 i_jump hits_air m0 Vec3.zero

end Golden
